import Mathlib

/-!
Verification of the price-analytics core of the homey-pstryk Homey app.

Shallow embedding conventions:
* instants are integers, milliseconds since the epoch (JS `Date.getTime()`);
* prices are exact rationals (JS numbers; the embedded arithmetic is exact);
* fallible JS code is embedded with `Except` / `Option`;
* local-calendar operations (`toLocaleDateString`, the next-refresh-hour
  computation) are abstracted as an explicit `TimeEnv` parameter, since they
  depend on the host timezone database; no claim depends on their internals.
-/

/-- One hour of price data, as delivered by the upstream feed
(`{start, end, price_gross, is_cheap, is_expensive, is_live}`).
`start` and `«end»` are embedded as millisecond instants (the source stores
ISO strings and compares them with `===` or via `new Date(...)`; both agree
with instant equality for the canonical strings of one API response). -/
structure Frame where
  start : Int
  «end» : Int
  price_gross : ℚ
  is_cheap : Option Bool
  is_expensive : Option Bool
  is_live : Bool
  deriving DecidableEq, Repr

/-- Milliseconds in one hour. -/
def hourMs : Int := 3600000

/-- JS coercion `x || null` for a numeric field: `0` and `null` map to `null`. -/
def jsNumOrNull (x : Option ℚ) : Option ℚ :=
  match x with
  | some v => if v = 0 then none else some v
  | none => none

/-- JS coercion `x || null` for an integer (timestamp) field. -/
def jsIntOrNull (x : Option Int) : Option Int :=
  match x with
  | some v => if v = 0 then none else some v
  | none => none

/-- JS coercion `x || null` for a string field: the empty string maps to `null`. -/
def jsStrOrNull (x : Option String) : Option String :=
  match x with
  | some v => if v = "" then none else some v
  | none => none

/-- JS comparison `now > x` where `x` may be `null`: `null` coerces to `0`. -/
def jsNullToZero (x : Option Int) : Int := x.getD 0

/-- Host-environment calendar operations, abstracted.
`dateOf t` is `new Date(t).toLocaleDateString("en-CA")`;
`nextRefreshInstant now refreshHour` is the instant computed in
`fetchFreshData` as "today (or tomorrow, if the hour already passed) at
`refreshHour`:00:00.000 local time". -/
structure TimeEnv where
  dateOf : Int → String
  nextRefreshInstant : Int → Int → Int

/-- State of `PriceDataCache` (src/unnamed/part_011, lines 9-66).
`isValidFlag` embeds the source field `isValid` (set by `updateCache`,
never consulted by `isCacheValid`). -/
structure CacheState where
  currentPrices : List Frame
  dailyAverage : Option ℚ
  lastUpdated : Option Int
  expiresAt : Option Int
  date : Option String
  isValidFlag : Bool
  deriving Repr

/-- The snapshot object returned by `PriceDataCache.getCachedData`. -/
structure CachedData where
  currentPrices : List Frame
  dailyAverage : Option ℚ
  lastUpdated : Option Int
  expiresAt : Option Int
  date : Option String
  deriving DecidableEq, Repr

/-- `PriceDataCache.isCacheValid` (part_011 lines 19-33): invalid if the local
date changed, the cache expired (`now.getTime() > this.expiresAt`, with JS
coercing a `null` `expiresAt` to `0`), or there are no frames.
`today` is `now.toLocaleDateString("en-CA")`, supplied by the caller's env. -/
def isCacheValid (c : CacheState) (now : Int) (today : String) : Bool :=
  if c.date ≠ some today then false
  else if now > jsNullToZero c.expiresAt then false
  else if c.currentPrices.isEmpty then false
  else true

/-- `PriceDataCache.getCachedData` (part_011 lines 53-65): a full snapshot when
the cache is valid, `null` otherwise. -/
def getCachedData (c : CacheState) (now : Int) (today : String) : Option CachedData :=
  if isCacheValid c now today then
    some ⟨c.currentPrices, c.dailyAverage, c.lastUpdated, c.expiresAt, c.date⟩
  else none

/-- The object returned by `APIOrchestrator.fetchFreshData`: on success the
fresh fields; on stale fallback the spread of the previous snapshot (hence the
optional `lastUpdated`) with an extended `expiresAt` and `isStale = true`. -/
structure FreshData where
  currentPrices : List Frame
  dailyAverage : Option ℚ
  expiresAt : Option Int
  date : Option String
  isStale : Bool
  lastUpdated : Option Int
  deriving DecidableEq, Repr

/-- `PriceDataCache.updateCache` (part_011 lines 44-51): stores exactly
`currentPrices`, `dailyAverage`, `lastUpdated := Date.now()`, `expiresAt`,
`date` (with JS `|| null` / `|| []` coercions; note an array is always truthy
in JS, so `currentPrices` is stored as given) and raises `isValid`.
The `isStale` field of the argument is not read. -/
def updateCache (c : CacheState) (d : FreshData) (now : Int) : CacheState :=
  { c with
    currentPrices := d.currentPrices
    dailyAverage := jsNumOrNull d.dailyAverage
    lastUpdated := some now
    expiresAt := jsIntOrNull d.expiresAt
    date := jsStrOrNull d.date
    isValidFlag := true }

/-- The parsed body of the single consolidated pricing request. -/
structure ApiResponse where
  frames : List Frame
  daily_average : Option ℚ
  deriving Repr

/-- `APIOrchestrator._calculateDailyAverage` (part_011 lines 241-254): mean of
`price_gross` over today's frames, `0` when there are none. -/
def calculateDailyAverage (frames : List Frame) (env : TimeEnv) (now : Int) : ℚ :=
  let todayFrames := frames.filter (fun f => env.dateOf f.start = env.dateOf now)
  if todayFrames.isEmpty then 0
  else ((todayFrames.map (fun f => f.price_gross)).sum) / todayFrames.length

/-- `APIOrchestrator.fetchFreshData` (part_011 lines 93-155).
`resp = some r` embeds a successful upstream request, `resp = none` a failed
one. On success: filter frames with a `null` `is_cheap` or `is_expensive`,
take the upstream daily average or (when falsy) the computed one, and set
`expiresAt` to the next occurrence of the refresh hour. On failure: return
the (valid) cached snapshot tagged stale with `expiresAt = now + 2h`, or
re-throw when `getCachedData` yields `null`. -/
def fetchFreshData (cache : CacheState) (resp : Option ApiResponse) (env : TimeEnv)
    (refreshHour : Int) (now : Int) : Except Unit FreshData :=
  match resp with
  | some r =>
      let validFrames := r.frames.filter
        (fun f => f.is_cheap ≠ none && f.is_expensive ≠ none)
      let dailyAverage :=
        match r.daily_average with
        | some v => if v = 0 then calculateDailyAverage validFrames env now else v
        | none => calculateDailyAverage validFrames env now
      Except.ok
        { currentPrices := validFrames
          dailyAverage := some dailyAverage
          expiresAt := some (env.nextRefreshInstant now refreshHour)
          date := some (env.dateOf now)
          isStale := false
          lastUpdated := none }
  | none =>
      match getCachedData cache now (env.dateOf now) with
      | some staleData =>
          Except.ok
            { currentPrices := staleData.currentPrices
              dailyAverage := staleData.dailyAverage
              expiresAt := some (now + 2 * 60 * 60 * 1000)
              date := staleData.date
              isStale := true
              lastUpdated := staleData.lastUpdated }
      | none => Except.error ()

/-- Orchestrator state (`APIOrchestrator`, part_011 lines 71-78). -/
structure OrchState where
  cache : CacheState
  isRefreshing : Bool
  manualRefreshRequested : Bool
  lastManualRefreshTime : Int
  deriving Repr

/-- The payloads of the `cache-status-changed` events. -/
inductive CacheStatus where
  | refreshing
  | fresh
  | stale
  | error
  deriving DecidableEq, Repr

/-- `APIOrchestrator.refreshAllDevices` (part_011 lines 157-209), as a pure
transition: result is (new state, emitted `cache-status-changed` events,
number of upstream requests attempted). `hasApiKey` embeds "some device
exists and its `apiKey` setting is set"; `resp` is the outcome of the one
upstream request made by `fetchFreshData` if it runs. Errors of
`fetchFreshData` are caught here and turned into an `error` status. -/
def refreshAllDevices (st : OrchState) (hasApiKey : Bool) (resp : Option ApiResponse)
    (env : TimeEnv) (refreshHour : Int) (now : Int) :
    OrchState × List CacheStatus × Nat :=
  if st.isRefreshing then (st, [], 0)
  else
    let st1 := { st with isRefreshing := true, manualRefreshRequested := false }
    if !hasApiKey then ({ st1 with isRefreshing := false }, [], 0)
    else
      match fetchFreshData st1.cache resp env refreshHour now with
      | Except.ok freshData =>
          let cache1 := updateCache st1.cache freshData now
          ({ st1 with cache := cache1, isRefreshing := false },
            [if freshData.isStale then CacheStatus.stale else CacheStatus.fresh], 1)
      | Except.error _ =>
          ({ st1 with isRefreshing := false }, [CacheStatus.error], 1)

/-- The 5-minute manual-refresh cooldown (part_011 line 218). -/
def cooldownPeriod : Int := 5 * 60 * 1000

/-- The rejection raised by a manual refresh during the cooldown, carrying
`Math.ceil((cooldownPeriod - elapsed) / 1000)` seconds of remaining wait. -/
inductive RefreshError where
  | cooldown (remainingSeconds : Int)
  deriving DecidableEq, Repr

/-- `APIOrchestrator.requestManualRefreshImmediate` (part_011 lines 215-239):
inside the cooldown, throw with the remaining seconds (and perform nothing);
otherwise record `lastManualRefreshTime := now` first, raise the manual flag,
emit a `refreshing` status and await `refreshAllDevices`. Result:
(thrown error or unit, new state, emitted events, upstream requests). -/
def requestManualRefreshImmediate (st : OrchState) (hasApiKey : Bool)
    (resp : Option ApiResponse) (env : TimeEnv) (refreshHour : Int) (now : Int) :
    Except RefreshError Unit × OrchState × List CacheStatus × Nat :=
  if now - st.lastManualRefreshTime < cooldownPeriod then
    let remainingTime := (cooldownPeriod - (now - st.lastManualRefreshTime) + 999).ediv 1000
    (Except.error (RefreshError.cooldown remainingTime), st, [], 0)
  else
    let st1 := { st with lastManualRefreshTime := now, manualRefreshRequested := true }
    let r := refreshAllDevices st1 hasApiKey resp env refreshHour now
    (Except.ok (), r.1, CacheStatus.refreshing :: r.2.1, r.2.2)

/-- Stable insertion of `x` after every leading `y` with `le y x` — the
building block of a stable sort matching the (stable, ES2019) JS
`Array.prototype.sort`. -/
def insertStable {α : Type} (le : α → α → Bool) (x : α) : List α → List α
  | [] => [x]
  | y :: ys => if le y x then y :: insertStable le x ys else x :: y :: ys

/-- Stable sort by the total preorder `le` (equal elements keep their input
order), the semantics of JS `sort` with a consistent numeric comparator. -/
def stableSortBy {α : Type} (le : α → α → Bool) (l : List α) : List α :=
  l.foldl (fun acc x => insertStable le x acc) []

/-- `frames.sort((a, b) => a.price_gross - b.price_gross)` (ascending) or the
reversed comparator (descending). -/
def sortFramesByPrice (frames : List Frame) (isAscending : Bool) : List Frame :=
  stableSortBy
    (fun a b =>
      if isAscending then decide (a.price_gross ≤ b.price_gross)
      else decide (b.price_gross ≤ a.price_gross))
    frames

/-- The rank window's exclusive end in `calculateCheapestHourRank`
(device.js lines 1075-1076): `setHours(now.getHours() + hourWindow)` keeps
the minute/second/ms of `now`, i.e. raw `now` plus `hourWindow` hours
(embedded for a fixed-offset timezone). -/
def rankWindowEnd (now : Int) (hourWindow : ℕ) : Int :=
  now + hourWindow * hourMs

/-- The rank window filter (device.js lines 1079-1083): frames with
`frameStart >= now && frameStart < windowEnd` — raw `now`, not the start of
the current hour. -/
def rankWindowFrames (validFrames : List Frame) (now : Int) (hourWindow : ℕ) : List Frame :=
  validFrames.filter
    (fun f => decide (now ≤ f.start) && decide (f.start < rankWindowEnd now hourWindow))

/-- Force-inclusion of the current frame (device.js lines 1086-1093). -/
def rankFramesWithCurrent (validFrames : List Frame) (cf : Frame) (now : Int)
    (hourWindow : ℕ) : List Frame :=
  let windowFrames := rankWindowFrames validFrames now hourWindow
  if windowFrames.any (fun f => f.start == cf.start) then windowFrames
  else windowFrames ++ [cf]

/-- `calculateCheapestHourRank` (device.js lines 1068-1142): sort the window
(plus forced current frame) ascending by price; 1/2/3 when the current
frame's index in that order is 0/1/2, else 0 (also 0 with no current frame,
or when `findIndex` misses). -/
def calculateCheapestHourRank (validFrames : List Frame) (currentFrame : Option Frame)
    (now : Int) (hourWindow : ℕ) : ℕ :=
  match currentFrame with
  | none => 0
  | some cf =>
      let sorted := sortFramesByPrice (rankFramesWithCurrent validFrames cf now hourWindow) true
      if sorted.length > 0 then
        match sorted.findIdx? (fun f => f.start == cf.start) with
        | some 0 => 1
        | some 1 => 2
        | some 2 => 3
        | _ => 0
      else 0

/-- Stated from the spec's words ("if the current frame's index in that
sorted order is 0, 1, or 2, return 1, 2, or 3 respectively; otherwise
return 0"), as the refinement target for the simple rank. -/
def specRankOfSortedIndex : Option ℕ → ℕ
  | some 0 => 1
  | some 1 => 2
  | some 2 => 3
  | _ => 0

/-- `now` truncated down to the start of its hour (minutes/seconds/ms
zeroed; fixed-offset timezone). -/
def hourStartOf (now : Int) : Int := now - now.emod hourMs

/-- Price rounding at the fixed tier precision of 6 decimal places:
the rounded value is `round(q * 10^6) / 10^6`, written with integer
numerator/denominator arithmetic (`⌊x + 1/2⌋ = (2 * num + den).ediv (2 * den)`
for the positive denominator of a normalized rational). -/
def roundPrice6 (q : ℚ) : ℚ :=
  mkRat ((2 * q.num * 1000000 + q.den).ediv (2 * q.den)) 1000000

/-- A frame is valid when neither upstream flag is `null`. -/
def isValidFrameB (f : Frame) : Bool :=
  decide (f.is_cheap ≠ none) && decide (f.is_expensive ≠ none)

/-- Modelled from the spec: the valid-frame window of the tied-position
algorithm, anchored at the current hour start —
`[currentHourStart, currentHourStart + hourWindow)` (spec §4.3, window
selection). The implementation of `calculateTiedPricePosition` is not under
`src/` (only its callers in `drivers/pstryk_price/driver.js` and design
documents are), so the window is taken from the spec's words. -/
def tiedWindow (frames : List Frame) (now : Int) (hourWindow : ℕ) : List Frame :=
  let ws := hourStartOf now
  frames.filter
    (fun f => isValidFrameB f && decide (ws ≤ f.start) &&
      decide (f.start < ws + hourWindow * hourMs))

/-- Modelled from the spec: the current frame, if not already inside the
filtered window, is force-included (spec §4.3, window selection). -/
def tiedWindowWithCurrent (frames : List Frame) (cf : Frame) (now : Int)
    (hourWindow : ℕ) : List Frame :=
  let wf := tiedWindow frames now hourWindow
  if wf.any (fun f => f.start == cf.start) then wf else wf ++ [cf]

/-- Modelled from the spec: `calculateTiedPricePosition(hourWindow)`
(spec §4.3, steps 1-6); the implementation is missing from `src/`. Frames
whose prices round to the same value at 6 decimals form one tier; tiers are
ordered ascending by price and numbered from 1; the result is the position
of the current frame's tier (the count of strictly lower distinct rounded
prices in the window, plus one), and `hourWindow` itself when no current
frame is resolvable or the window is empty. The 5-minute result cache
(step 5) is a pure memoisation and is not modelled. -/
def calculateTiedPricePosition (frames : List Frame) (currentFrame : Option Frame)
    (now : Int) (hourWindow : ℕ) : ℚ :=
  match currentFrame with
  | none => (hourWindow : ℚ)
  | some cf =>
      let wf := tiedWindowWithCurrent frames cf now hourWindow
      if wf.isEmpty then (hourWindow : ℚ)
      else
        let p := roundPrice6 cf.price_gross
        let lower :=
          ((wf.map (fun f => roundPrice6 f.price_gross)).filter (fun q => decide (q < p))).dedup
        ((lower.length : ℚ) + 1)

/-- A contiguous cheap/expensive usage block (the debug-only `frameInfo`
list of the source is omitted: it never feeds back into the algorithm). -/
structure Block where
  startTime : Int
  endTime : Int
  durationHours : Int
  avgPrice : ℚ
  frames : List Frame
  deriving DecidableEq, Repr

/-- A fresh single-frame block (device.js lines 1235-1250). The duration is
`Math.round(frameDuration / 3600000)` — round-half-up, written as the
integer floor division `(d + 1800000).ediv 3600000`. -/
def seedBlock (f : Frame) : Block :=
  { startTime := f.start
    endTime := f.«end»
    durationHours := max 1 ((f.«end» - f.start + 1800000).ediv 3600000)
    avgPrice := f.price_gross
    frames := [f] }

/-- First-minimal scan of the `forEach` best-candidate searches
(device.js lines 1278-1311): keep the first frame satisfying `pred` with a
strictly smaller time distance to `lastEnd` than any kept before. -/
def scanBestFrame (pred : Frame → Bool) (lastEnd : Int) (cands : List Frame) :
    Option (Frame × ℕ) :=
  cands.foldl
    (fun best f =>
      let timeDiff := (f.start - lastEnd).natAbs
      match best with
      | none => if pred f then some (f, timeDiff) else none
      | some (bf, bd) => if pred f && decide (timeDiff < bd) then some (f, timeDiff) else some (bf, bd))
    none

/-- Candidate selection for one extension step (device.js lines 1261-1312):
frames adjacent to the last member frame's end (`start == lastFrameEnd` or
`start == lastFrameEnd - 1h`); prefer an exact-average-price match, else any
within `avgPrice * threshold`, each time the closest in time. -/
def findBestFrame (block : Block) (available : List Frame) (thr : ℚ) : Option Frame :=
  match block.frames.getLast? with
  | none => none
  | some lastFrame =>
      let lastEnd := lastFrame.«end»
      let adjacent := available.filter
        (fun f => decide (f.start = lastEnd) || decide (f.start = lastEnd - hourMs))
      match scanBestFrame (fun f => decide (f.price_gross = block.avgPrice)) lastEnd adjacent with
      | some fb => some fb.1
      | none =>
          match scanBestFrame
              (fun f => decide (|f.price_gross - block.avgPrice| ≤ block.avgPrice * thr))
              lastEnd adjacent with
          | some fb => some fb.1
          | none => none

/-- Splicing the chosen frame into the block (device.js lines 1314-1363):
append when it starts at/after the last frame's end, else prepend; then
recompute the running average and set the duration to the frame count. -/
def addFrameToBlock (block : Block) (bf : Frame) : Block :=
  match block.frames.getLast? with
  | none => block
  | some lastFrame =>
      let frames2 :=
        if bf.start ≥ lastFrame.«end» then block.frames ++ [bf] else bf :: block.frames
      { startTime := if bf.start ≥ lastFrame.«end» then block.startTime else bf.start
        endTime := if bf.start ≥ lastFrame.«end» then bf.«end» else block.endTime
        durationHours := frames2.length
        avgPrice := ((frames2.map (fun f => f.price_gross)).sum) / frames2.length
        frames := frames2 }

/-- The block-extension loop (device.js lines 1254-1376), bounded by the
6-hour cap. The fuel of 6 is exact: the loop body runs only while the block
has fewer than 6 frames and each pass adds exactly one frame to the
single-frame seed, so 6 units are never exhausted early. -/
def extendLoop (fuel : ℕ) (block : Block) (available : List Frame) (thr : ℚ) :
    Block × List Frame :=
  match fuel with
  | 0 => (block, available)
  | n + 1 =>
      if block.frames.length ≥ 6 then (block, available)
      else
        match findBestFrame block available thr with
        | none => (block, available)
        | some bf =>
            extendLoop n (addFrameToBlock block bf)
              (available.eraseP (fun g => g.start == bf.start)) thr

/-- The post-block overlap sweep predicate (device.js lines 1383-1394). -/
def overlapsBlock (block : Block) (f : Frame) : Bool :=
  (decide (f.start ≥ block.startTime) && decide (f.start < block.endTime)) ||
    (decide (f.«end» > block.startTime) && decide (f.«end» ≤ block.endTime))

/-- The outer block-building loop (device.js lines 1223-1395): seed from the
next extreme-priced frame, skip already-processed starts, extend, then drop
every remaining frame overlapping the finished block; stop at 3 blocks or
when no frames remain. The fuel (the length of the available list at entry)
is exact: every pass consumes at least the head frame. -/
def findBlocksLoop (fuel : ℕ) (available : List Frame) (processed : List Int)
    (blocks : List Block) (thr : ℚ) : List Block :=
  match fuel with
  | 0 => blocks
  | n + 1 =>
      match available with
      | [] => blocks
      | startFrame :: rest =>
          if blocks.length ≥ 3 then blocks
          else if processed.contains startFrame.start then
            findBlocksLoop n rest processed blocks thr
          else
            let er := extendLoop 6 (seedBlock startFrame) rest thr
            let block := er.1
            let rest2 := er.2.filter (fun f => !overlapsBlock block f)
            findBlocksLoop n rest2 (processed ++ block.frames.map (fun f => f.start))
              (blocks ++ [block]) thr

/-- `findOptimalBlocks` (device.js lines 1207-1398). -/
def findOptimalBlocks (frames : List Frame) (isAscending : Bool) (thr : ℚ) : List Block :=
  let available := sortFramesByPrice frames isAscending
  findBlocksLoop available.length available [] [] thr

/-- Frames sorted chronologically (`sort((a, b) => new Date(a.start) - new Date(b.start))`). -/
def sortFramesByStart (frames : List Frame) : List Frame :=
  stableSortBy (fun a b => decide (a.start ≤ b.start)) frames

/-- Duplicate removal keeping the first frame of each start time
(device.js lines 1649-1658). -/
def dedupByStartAux : List Frame → List Int → List Frame
  | [], _ => []
  | f :: fs, seen =>
      if seen.contains f.start then dedupByStartAux fs seen
      else f :: dedupByStartAux fs (f.start :: seen)

/-- Duplicate removal keeping the first frame of each start time. -/
def dedupByStart (l : List Frame) : List Frame := dedupByStartAux l []

/-- Merging one absorbed block into the running one (device.js lines
1638-1678): extend the end time, merge and dedup the frames chronologically,
set the duration to the frame count and recompute the average over all
member frames (the frame-count-weighted mean). -/
def mergeTwoBlocks (current next : Block) : Block :=
  let uniqueFrames := dedupByStart (sortFramesByStart (current.frames ++ next.frames))
  { current with
    endTime := max current.endTime next.endTime
    frames := uniqueFrames
    durationHours := uniqueFrames.length
    avgPrice := ((uniqueFrames.map (fun f => f.price_gross)).sum) / uniqueFrames.length }

/-- The linear merge pass of `mergeBlocks` (device.js lines 1613-1685):
absorb the next block when the gap to it is at most 2 hours and the averages
are nearly identical (< 0.0001) or within half the similarity threshold. -/
def mergeLoop (current : Block) (remaining : List Block) (thr : ℚ)
    (acc : List Block) : List Block :=
  match remaining with
  | [] => acc ++ [current]
  | next :: rest =>
      let timeGap := next.startTime - current.endTime
      let priceDiff := |current.avgPrice - next.avgPrice|
      let samePriceGroup := decide (priceDiff < 1 / 10000)
      let mergeThreshold := thr / 2
      if decide (timeGap ≤ 7200000) &&
          (decide (priceDiff < current.avgPrice * mergeThreshold) || samePriceGroup) then
        mergeLoop (mergeTwoBlocks current next) rest thr acc
      else
        mergeLoop next rest thr (acc ++ [current])

/-- The final ordering of `mergeBlocks` (device.js lines 1688-1695): same
average (within 0.0001) → longer block first, else cheaper block first. -/
def finalSortBlocks (blocks : List Block) : List Block :=
  stableSortBy
    (fun a b =>
      if |a.avgPrice - b.avgPrice| < 1 / 10000 then decide (b.durationHours ≤ a.durationHours)
      else decide (a.avgPrice ≤ b.avgPrice))
    blocks

/-- `mergeBlocks` (device.js lines 1602-1697): sort by start time, run the
linear merge pass, re-sort by (duration, price) and keep the top 3. -/
def mergeBlocks (blocks : List Block) (thr : ℚ) : List Block :=
  match stableSortBy (fun a b => decide (a.startTime ≤ b.startTime)) blocks with
  | [] => []
  | b0 :: rest => (finalSortBlocks (mergeLoop b0 rest thr [])).take 3

/-- `findOptimalPeriods` (device.js lines 1189-1430), up to the cosmetic
formatting: filter to frames overlapping `(now, now + 36h)`, build cheap and
expensive blocks, and combine each direction with the still-unexpired blocks
of the previous computation (`prev`, the stored `_previousBlocks`) through
`mergeBlocks` whenever any survive. -/
def findOptimalPeriods (frames : List Frame) (now : Int) (thr : ℚ)
    (prev : Option (List Block × List Block)) : List Block × List Block :=
  let cutoff := now + 36 * hourMs
  let futureFrames := frames.filter
    (fun f => decide (f.«end» > now) && decide (f.start < cutoff))
  if futureFrames.isEmpty then ([], [])
  else
    let cheapBlocks := findOptimalBlocks futureFrames true thr
    let expensiveBlocks := findOptimalBlocks futureFrames false thr
    match prev with
    | none => (cheapBlocks, expensiveBlocks)
    | some pv =>
        let validCheapBlocks := pv.1.filter (fun b => decide (b.endTime > now))
        let validExpensiveBlocks := pv.2.filter (fun b => decide (b.endTime > now))
        let cb :=
          if validCheapBlocks.isEmpty then cheapBlocks
          else mergeBlocks (validCheapBlocks ++ cheapBlocks) thr
        let eb :=
          if validExpensiveBlocks.isEmpty then expensiveBlocks
          else mergeBlocks (validExpensiveBlocks ++ expensiveBlocks) thr
        (cb, eb)

/-- Two blocks are time-disjoint (their ranges do not intersect). -/
def blocksDisjoint (a b : Block) : Prop :=
  min a.endTime b.endTime ≤ max a.startTime b.startTime

/-- A valid frame (both upstream flags non-null) of one hour at `s` with
price `p`, for concrete evaluations. -/
def mkValidFrame (s : Int) (p : ℚ) : Frame :=
  { start := s
    «end» := s + hourMs
    price_gross := p
    is_cheap := some false
    is_expensive := some false
    is_live := false }

/-- Frame set for the window-anchoring evaluation: hourly frames at
00:00-05:00 with prices 5, 10, 10, 10, 1. -/
def anchorFrames : List Frame :=
  [mkValidFrame 0 5, mkValidFrame 3600000 10, mkValidFrame 7200000 10,
    mkValidFrame 10800000 10, mkValidFrame 14400000 1]

/-- The i-th of eight hourly frames all tied at the minimum price 1. -/
def mkTiedFrame (i : ℕ) : Frame := mkValidFrame (i * 3600000) 1

/-- Eight hourly frames tied at the minimum price, filling an 8h window. -/
def tiedFrames : List Frame := (List.range 8).map mkTiedFrame

/-- Frames for the tied-position witness: two frames tied at the minimum
price 1 and one at price 2. -/
def exTiedFrames : List Frame :=
  [mkValidFrame 0 1, mkValidFrame 3600000 1, mkValidFrame 7200000 2]

/-- The first minimum-price frame of `exTiedFrames`. -/
def exTiedCf : Frame := mkValidFrame 0 1

/-- The second minimum-price frame of `exTiedFrames`. -/
def exTiedCf2 : Frame := mkValidFrame 3600000 1

/-- A fixed-calendar environment for concrete runs. -/
def envFixed : TimeEnv :=
  { dateOf := fun _ => "2025-01-15"
    nextRefreshInstant := fun _ _ => 54000000 }

/-- A nonempty frame list for concrete cache snapshots. -/
def exFrame0 : Frame := mkValidFrame 0 1

/-- A cache holding a currently valid snapshot (date matches `envFixed`,
expiry far in the future, nonempty frames). -/
def stFallbackCache : CacheState :=
  { currentPrices := [exFrame0]
    dailyAverage := some 1
    lastUpdated := some 5
    expiresAt := some 10000000
    date := some "2025-01-15"
    isValidFlag := true }

/-- A cache holding a previous snapshot that has expired
(`expiresAt = 1000` in the past of the failure time `10000`). -/
def expiredSnapshotCache : CacheState :=
  { currentPrices := [exFrame0]
    dailyAverage := some 1
    lastUpdated := some 5
    expiresAt := some 1000
    date := some "2025-01-15"
    isValidFlag := true }

/-- The freshly constructed, never-populated cache. -/
def emptyCache : CacheState :=
  { currentPrices := []
    dailyAverage := none
    lastUpdated := none
    expiresAt := none
    date := none
    isValidFlag := false }

/-- An orchestrator at rest holding the valid snapshot. -/
def stReadyValid : OrchState :=
  { cache := stFallbackCache
    isRefreshing := false
    manualRefreshRequested := false
    lastManualRefreshTime := 0 }

/-- An orchestrator with a refresh already in flight. -/
def stBusy : OrchState :=
  { cache := stFallbackCache
    isRefreshing := true
    manualRefreshRequested := false
    lastManualRefreshTime := 0 }

/-- The four hourly frames of the previously found cheap block 10:00-14:00. -/
def exPrevFrames : List Frame :=
  [mkValidFrame 36000000 1, mkValidFrame 39600000 1,
    mkValidFrame 43200000 1, mkValidFrame 46800000 1]

/-- A still-unexpired cheap block [10:00, 14:00) at average price 1 kept
from the previous computation. -/
def exPrevBlock : Block :=
  { startTime := 36000000
    endTime := 50400000
    durationHours := 4
    avgPrice := 1
    frames := exPrevFrames }

/-- The frames of the new refresh: the cheapest hour is 11:00-12:00 at
price 5 (inside the previous block's range but far from its price), plus
two isolated dearer hours. -/
def exNewFrames : List Frame :=
  [mkValidFrame 39600000 5, mkValidFrame 72000000 20, mkValidFrame 79200000 30]

/-- The cheap block [11:00, 12:00) at price 5 found by the new refresh. -/
def exNewBlockA : Block :=
  { startTime := 39600000
    endTime := 43200000
    durationHours := 1
    avgPrice := 5
    frames := [mkValidFrame 39600000 5] }

/-- The cheap block [20:00, 21:00) at price 20 found by the new refresh. -/
def exNewBlockB : Block :=
  { startTime := 72000000
    endTime := 75600000
    durationHours := 1
    avgPrice := 20
    frames := [mkValidFrame 72000000 20] }

/-- The cheap block [22:00, 23:00) at price 30 found by the new refresh. -/
def exNewBlockC : Block :=
  { startTime := 79200000
    endTime := 82800000
    durationHours := 1
    avgPrice := 30
    frames := [mkValidFrame 79200000 30] }

instance (a b : Block) : Decidable (blocksDisjoint a b) := by
  unfold blocksDisjoint
  infer_instance

/-- C5: `isCacheValid(now)` is false exactly when the local date of `now`
differs from the cache date, or `now` is past `expiresAt`, or the frame set
is empty; and `getCachedData` returns the full snapshot precisely when the
check holds and `null` otherwise. -/
theorem cacheValidity_characterization (c : CacheState) (now : Int) (today : String) :
    (isCacheValid c now today = false ↔
      (c.date ≠ some today ∨ now > jsNullToZero c.expiresAt ∨ c.currentPrices = [])) ∧
    getCachedData c now today =
      (if isCacheValid c now today then
        some ⟨c.currentPrices, c.dailyAverage, c.lastUpdated, c.expiresAt, c.date⟩
      else none) := by
  constructor
  · by_cases hd : c.date = some today
    · by_cases he : now > jsNullToZero c.expiresAt
      · simp [isCacheValid, hd, he]
      · by_cases hp : c.currentPrices = []
        · simp [isCacheValid, hd, he, hp]
        · simp [isCacheValid, hd, he, hp, List.isEmpty_iff]
    · simp [isCacheValid, hd]
  · rfl

/-- C3 counterexample: at failure time `10000` the cache still holds a
previous snapshot (nonempty frames, a date, an `expiresAt` of `1000` already
in the past), yet `fetchFreshData` propagates the failure instead of
returning the snapshot tagged stale. -/
theorem fetchFreshData_expired_snapshot_failure_propagates :
    expiredSnapshotCache.currentPrices ≠ [] ∧
    expiredSnapshotCache.date = some "2025-01-15" ∧
    jsNullToZero expiredSnapshotCache.expiresAt < 10000 ∧
    fetchFreshData expiredSnapshotCache none envFixed 15 10000 = Except.error () := by
  refine ⟨by decide, rfl, by decide, rfl⟩

/-- C3 (amended): on fetch failure, the snapshot comes back tagged
`isStale = true` with `expiresAt` two hours past the failure time exactly
when `getCachedData` still yields it (valid: same local date, unexpired,
nonempty); whenever `getCachedData` yields `null` — including over a merely
expired previous snapshot — the failure propagates. -/
theorem fetchFreshData_stale_fallback_requires_valid_snapshot
    (cache : CacheState) (env : TimeEnv) (refreshHour now : Int) :
    (∀ snap, getCachedData cache now (env.dateOf now) = some snap →
      fetchFreshData cache none env refreshHour now = Except.ok
        { currentPrices := snap.currentPrices
          dailyAverage := snap.dailyAverage
          expiresAt := some (now + 2 * 60 * 60 * 1000)
          date := snap.date
          isStale := true
          lastUpdated := snap.lastUpdated }) ∧
    (getCachedData cache now (env.dateOf now) = none →
      fetchFreshData cache none env refreshHour now = Except.error ()) := by
  constructor
  · intro snap h
    simp [fetchFreshData, h]
  · intro h
    simp [fetchFreshData, h]

/-- C3 witness: the fallback theorem applied to the valid snapshot of
`stFallbackCache` and to the empty cache. -/
theorem fetchFreshData_stale_fallback_requires_valid_snapshot_witness :
    fetchFreshData stFallbackCache none envFixed 15 1000 = Except.ok
      { currentPrices := [exFrame0]
        dailyAverage := some 1
        expiresAt := some (1000 + 2 * 60 * 60 * 1000)
        date := some "2025-01-15"
        isStale := true
        lastUpdated := some 5 } ∧
    fetchFreshData emptyCache none envFixed 15 1000 = Except.error () :=
  ⟨(fetchFreshData_stale_fallback_requires_valid_snapshot stFallbackCache envFixed 15 1000).1
      ⟨[exFrame0], some 1, some 5, some 10000000, some "2025-01-15"⟩ rfl,
    (fetchFreshData_stale_fallback_requires_valid_snapshot emptyCache envFixed 15 1000).2 rfl⟩

/-- C9: the stale tag is not persisted — `updateCache` stores the same five
fields whatever the `isStale` flag of its argument, and during a
stale-fallback refresh the installed cache equals the one an untagged
install of the same snapshot would produce; the only staleness signal is
the one-shot `stale` status event of that refresh. -/
theorem updateCache_drops_stale_tag :
    (∀ (c : CacheState) (d : FreshData) (b : Bool) (now : Int),
      updateCache c { d with isStale := b } now = updateCache c d now) ∧
    (∀ (st : OrchState) (env : TimeEnv) (refreshHour now : Int) (snap : CachedData),
      st.isRefreshing = false →
      getCachedData st.cache now (env.dateOf now) = some snap →
      (refreshAllDevices st true none env refreshHour now).2.1 = [CacheStatus.stale] ∧
      (refreshAllDevices st true none env refreshHour now).1.cache =
        updateCache st.cache
          { currentPrices := snap.currentPrices
            dailyAverage := snap.dailyAverage
            expiresAt := some (now + 2 * 60 * 60 * 1000)
            date := snap.date
            isStale := false
            lastUpdated := snap.lastUpdated } now) := by
  constructor
  · intro c d b now
    rfl
  · intro st env refreshHour now snap hidle hsnap
    have hfetch : fetchFreshData st.cache none env refreshHour now = Except.ok
        { currentPrices := snap.currentPrices
          dailyAverage := snap.dailyAverage
          expiresAt := some (now + 2 * 60 * 60 * 1000)
          date := snap.date
          isStale := true
          lastUpdated := snap.lastUpdated } := by
      simp [fetchFreshData, hsnap]
    constructor
    · simp [refreshAllDevices, hidle, hfetch]
    · simp [refreshAllDevices, hidle, hfetch, updateCache]

/-- C9 witness: the two parts of the stale-tag theorem at a concrete cache,
snapshot and instant. -/
theorem updateCache_drops_stale_tag_witness :
    updateCache emptyCache
        { currentPrices := [exFrame0], dailyAverage := some 1, expiresAt := some 7,
          date := some "2025-01-15", isStale := true, lastUpdated := none } 3 =
      updateCache emptyCache
        { currentPrices := [exFrame0], dailyAverage := some 1, expiresAt := some 7,
          date := some "2025-01-15", isStale := false, lastUpdated := none } 3 ∧
    (refreshAllDevices stReadyValid true none envFixed 15 1000).2.1 = [CacheStatus.stale] :=
  ⟨updateCache_drops_stale_tag.1 emptyCache
      { currentPrices := [exFrame0], dailyAverage := some 1, expiresAt := some 7,
        date := some "2025-01-15", isStale := false, lastUpdated := none } true 3,
    (updateCache_drops_stale_tag.2 stReadyValid envFixed 15 1000
        ⟨[exFrame0], some 1, some 5, some 10000000, some "2025-01-15"⟩ rfl rfl).1⟩

/-- C4: a manual refresh outside the cooldown succeeds and performs exactly
one upstream fetch (the refresh is awaited within the call); a second call
less than 5 minutes later rejects with the cooldown error carrying the
remaining wait in seconds, leaves the state untouched, emits nothing and
performs no upstream fetch. -/
theorem manualRefreshImmediate_cooldown_enforced
    (st : OrchState) (resp resp2 : Option ApiResponse) (env : TimeEnv)
    (refreshHour t t2 : Int)
    (hidle : st.isRefreshing = false)
    (hfirst : cooldownPeriod ≤ t - st.lastManualRefreshTime)
    (hsecond : t2 - t < cooldownPeriod) :
    (requestManualRefreshImmediate st true resp env refreshHour t).1 = Except.ok () ∧
    (requestManualRefreshImmediate st true resp env refreshHour t).2.2.2 = 1 ∧
    requestManualRefreshImmediate
        (requestManualRefreshImmediate st true resp env refreshHour t).2.1
        true resp2 env refreshHour t2 =
      (Except.error (RefreshError.cooldown ((cooldownPeriod - (t2 - t) + 999).ediv 1000)),
        (requestManualRefreshImmediate st true resp env refreshHour t).2.1, [], 0) := by
  have hnot : ¬ (t - st.lastManualRefreshTime < cooldownPeriod) := by omega
  cases hf : fetchFreshData st.cache resp env refreshHour t with
  | ok fd =>
      simp [requestManualRefreshImmediate, refreshAllDevices, hnot, hidle, hf, hsecond]
  | error e =>
      simp [requestManualRefreshImmediate, refreshAllDevices, hnot, hidle, hf, hsecond]

/-- C4 witness: first call at `t = 300000` on a rested orchestrator, second
call 100 seconds later rejected with 200 seconds of remaining cooldown. -/
theorem manualRefreshImmediate_cooldown_enforced_witness :
    (requestManualRefreshImmediate stReadyValid true none envFixed 15 300000).1 =
      Except.ok () ∧
    (requestManualRefreshImmediate stReadyValid true none envFixed 15 300000).2.2.2 = 1 ∧
    requestManualRefreshImmediate
        (requestManualRefreshImmediate stReadyValid true none envFixed 15 300000).2.1
        true none envFixed 15 400000 =
      (Except.error (RefreshError.cooldown ((cooldownPeriod - (400000 - 300000) + 999).ediv 1000)),
        (requestManualRefreshImmediate stReadyValid true none envFixed 15 300000).2.1, [], 0) :=
  manualRefreshImmediate_cooldown_enforced stReadyValid none none envFixed 15 300000 400000
    rfl (by decide) (by decide)

/-- C10: `requestManualRefreshImmediate` records the cooldown timestamp
before running the refresh, so even when the inner refresh no-ops (another
refresh already in flight: zero upstream fetches), the first call succeeds,
stores `lastManualRefreshTime = t`, and a second call within 5 minutes is
rejected with the cooldown error and again fetches nothing. -/
theorem cooldown_recorded_before_refresh
    (st : OrchState) (resp resp2 : Option ApiResponse) (env : TimeEnv)
    (refreshHour t t2 : Int)
    (hbusy : st.isRefreshing = true)
    (hfirst : cooldownPeriod ≤ t - st.lastManualRefreshTime)
    (hsecond : t2 - t < cooldownPeriod) :
    (requestManualRefreshImmediate st true resp env refreshHour t).1 = Except.ok () ∧
    (requestManualRefreshImmediate st true resp env refreshHour t).2.2.2 = 0 ∧
    (requestManualRefreshImmediate st true resp env refreshHour t).2.1.lastManualRefreshTime = t ∧
    (requestManualRefreshImmediate
        (requestManualRefreshImmediate st true resp env refreshHour t).2.1
        true resp2 env refreshHour t2).1 =
      Except.error (RefreshError.cooldown ((cooldownPeriod - (t2 - t) + 999).ediv 1000)) ∧
    (requestManualRefreshImmediate
        (requestManualRefreshImmediate st true resp env refreshHour t).2.1
        true resp2 env refreshHour t2).2.2.2 = 0 := by
  have hnot : ¬ (t - st.lastManualRefreshTime < cooldownPeriod) := by omega
  simp [requestManualRefreshImmediate, refreshAllDevices, hnot, hbusy, hsecond]

/-- C10 witness: with a refresh in flight, the first immediate call at
`t = 300000` fetches nothing yet arms the cooldown; the call at `t = 400000`
is rejected. -/
theorem cooldown_recorded_before_refresh_witness :
    (requestManualRefreshImmediate stBusy true none envFixed 15 300000).1 = Except.ok () ∧
    (requestManualRefreshImmediate stBusy true none envFixed 15 300000).2.2.2 = 0 ∧
    (requestManualRefreshImmediate stBusy true none envFixed 15 300000).2.1.lastManualRefreshTime
      = 300000 ∧
    (requestManualRefreshImmediate
        (requestManualRefreshImmediate stBusy true none envFixed 15 300000).2.1
        true none envFixed 15 400000).1 =
      Except.error (RefreshError.cooldown ((cooldownPeriod - (400000 - 300000) + 999).ediv 1000)) ∧
    (requestManualRefreshImmediate
        (requestManualRefreshImmediate stBusy true none envFixed 15 300000).2.1
        true none envFixed 15 400000).2.2.2 = 0 :=
  cooldown_recorded_before_refresh stBusy none none envFixed 15 300000 400000
    rfl (by decide) (by decide)

/-- C1: `calculateCheapestHourRank` anchors its window at raw `now`, not at
the start of the current hour, so the rank of the same current frame over
the same frame set differs between 00:00:00 and 00:30:00 of the same clock
hour (1 versus 2 on `anchorFrames` with a 4h window) — refuting the claimed
minute/second invariance; the spec's hour-start anchor is the stated
intent ("identified defect... must not be reproduced"). -/
theorem cheapestHourRank_not_invariant_within_hour :
    hourStartOf 0 = hourStartOf 1800000 ∧
    calculateCheapestHourRank anchorFrames (some (mkValidFrame 0 5)) 0 4 = 1 ∧
    calculateCheapestHourRank anchorFrames (some (mkValidFrame 0 5)) 1800000 4 = 2 := by
  refine ⟨by decide, by decide, by decide⟩

/-- C6: the simple rank equals the spec's function of the current frame's
index in the price-sorted window (1/2/3 for indices 0/1/2, else 0); and on
eight frames tied at the minimum price filling an 8h window, at most 3 of
the eight receive a nonzero rank. -/
theorem cheapestHourRank_spec_and_tie_scenario :
    (∀ (validFrames : List Frame) (cf : Frame) (now : Int) (hourWindow : ℕ),
      calculateCheapestHourRank validFrames (some cf) now hourWindow =
        specRankOfSortedIndex
          ((sortFramesByPrice (rankFramesWithCurrent validFrames cf now hourWindow) true).findIdx?
            (fun f => f.start == cf.start))) ∧
    (List.range 8).countP
        (fun i => calculateCheapestHourRank tiedFrames (some (mkTiedFrame i)) 0 8 != 0) ≤ 3 := by
  constructor
  · intro validFrames cf now hourWindow
    simp only [calculateCheapestHourRank]
    cases hl : sortFramesByPrice (rankFramesWithCurrent validFrames cf now hourWindow) true with
    | nil => simp [specRankOfSortedIndex]
    | cons a as =>
        simp only [List.length_cons, if_pos (Nat.succ_pos as.length)]
        rcases hidx : (a :: as).findIdx? (fun f => f.start == cf.start) with _ | i
        · rfl
        · rcases i with _ | _ | _ | i <;> rfl
  · decide

/-- Helper: a current frame whose rounded price is minimal in the anchored
window gets tied position 1 (its tier has no lower tier below it). -/
theorem tiedPosition_eq_one_of_min
    (frames : List Frame) (cf : Frame) (now : Int) (hourWindow : ℕ)
    (hcf : cf ∈ tiedWindow frames now hourWindow)
    (hmin : ∀ f ∈ tiedWindow frames now hourWindow,
      roundPrice6 cf.price_gross ≤ roundPrice6 f.price_gross) :
    calculateTiedPricePosition frames (some cf) now hourWindow = 1 := by
  have hany : (tiedWindow frames now hourWindow).any (fun f => f.start == cf.start) = true :=
    List.any_eq_true.mpr ⟨cf, hcf, by simp⟩
  have hwf : tiedWindowWithCurrent frames cf now hourWindow = tiedWindow frames now hourWindow := by
    simp [tiedWindowWithCurrent, hany]
  have hne : (tiedWindow frames now hourWindow).isEmpty = false := by
    rcases h : tiedWindow frames now hourWindow with _ | ⟨a, as⟩
    · rw [h] at hcf
      cases hcf
    · rfl
  have hfil : ((tiedWindow frames now hourWindow).map
      (fun f => roundPrice6 f.price_gross)).filter
        (fun q => decide (q < roundPrice6 cf.price_gross)) = [] := by
    rw [List.filter_eq_nil_iff]
    intro q hq
    obtain ⟨f, hf, rfl⟩ := List.mem_map.mp hq
    simpa using not_lt.mpr (hmin f hf)
  simp [calculateTiedPricePosition, hwf, hne, hfil]

/-- C2: whenever k ≥ 1 frames of the anchored window share the minimum
(rounded) price, the tied position of the current hour is 1.0 no matter
which of those frames is current: a minimum-price current frame yields 1,
and any other frame of the same (rounded-equal) tier yields the same 1. -/
theorem tiedPricePosition_min_tier_returns_one
    (frames : List Frame) (cf cf2 : Frame) (now : Int) (hourWindow : ℕ)
    (hcf : cf ∈ tiedWindow frames now hourWindow)
    (hmin : ∀ f ∈ tiedWindow frames now hourWindow,
      roundPrice6 cf.price_gross ≤ roundPrice6 f.price_gross) :
    calculateTiedPricePosition frames (some cf) now hourWindow = 1 ∧
    (cf2 ∈ tiedWindow frames now hourWindow →
      roundPrice6 cf2.price_gross = roundPrice6 cf.price_gross →
      calculateTiedPricePosition frames (some cf2) now hourWindow = 1) := by
  refine ⟨tiedPosition_eq_one_of_min frames cf now hourWindow hcf hmin, ?_⟩
  intro h2 heq
  refine tiedPosition_eq_one_of_min frames cf2 now hourWindow h2 ?_
  intro f hf
  rw [heq]
  exact hmin f hf

/-- C2 witness: on three window frames priced 1, 1, 2 (evaluated mid-hour at
00:30), both minimum-price frames receive tied position 1.0. -/
theorem tiedPricePosition_min_tier_returns_one_witness :
    calculateTiedPricePosition exTiedFrames (some exTiedCf) 1800000 4 = 1 ∧
    calculateTiedPricePosition exTiedFrames (some exTiedCf2) 1800000 4 = 1 :=
  ⟨(tiedPricePosition_min_tier_returns_one exTiedFrames exTiedCf exTiedCf2 1800000 4
      (by decide) (by decide)).1,
    (tiedPricePosition_min_tier_returns_one exTiedFrames exTiedCf exTiedCf2 1800000 4
      (by decide) (by decide)).2 (by decide) (by decide)⟩

/-- C7: the Optimal Period Finder can return two cheap blocks whose time
ranges intersect. With the still-unexpired previous cheap block
[10:00, 14:00) at average price 1 and a new refresh whose cheapest hour is
[11:00, 12:00) at price 5, the cross-refresh merge keeps both (the gap is
within 2 hours but the prices differ by far more than half the similarity
threshold, so they are not merged), and the returned list contains the
nested pair — refuting the claimed non-overlap invariant, which the spec
states as a testable property. -/
theorem optimalPeriods_returns_overlapping_blocks :
    ((findOptimalPeriods exNewFrames 0 (mkRat 1 10) (some ([exPrevBlock], []))).1.map
        (fun b => (b.startTime, b.endTime))) =
      [(36000000, 50400000), (39600000, 43200000), (72000000, 75600000)] ∧
    ¬ (findOptimalPeriods exNewFrames 0 (mkRat 1 10) (some ([exPrevBlock], []))).1.Pairwise
        blocksDisjoint := by
  have key : (findOptimalPeriods exNewFrames 0 (mkRat 1 10) (some ([exPrevBlock], []))).1 =
      mergeBlocks ([exPrevBlock] ++ [exNewBlockA, exNewBlockB, exNewBlockC]) (mkRat 1 10) := rfl
  have hmerge : mergeBlocks ([exPrevBlock] ++ [exNewBlockA, exNewBlockB, exNewBlockC])
      (mkRat 1 10) = [exPrevBlock, exNewBlockA, exNewBlockB] := by
    norm_num [mergeBlocks, stableSortBy, insertStable, mergeLoop, finalSortBlocks,
      exPrevBlock, exNewBlockA, exNewBlockB, exNewBlockC, Rat.mkRat_eq_div]
  constructor
  · rw [key, hmerge]
    decide
  · rw [key, hmerge]
    decide
